import Mathlib

/-!
Verification development for the YunChat multi-provider AI chat layer
(`src/src/App.tsx`: `OpenAIService`, `AnthropicService`, `GoogleService`,
`AIServiceFactory`).  The JavaScript runtime pieces the services rely on
(`JSON.parse`, property access with `?.` and truthiness, `String.prototype`
helpers, the streamed HTTP response) are modelled executably below; the
service methods themselves are translated line by line from the source.
-/

namespace YunChat

/-- JSON values as produced by the JavaScript `JSON.parse` builtin.
Numbers are modelled as integers, which covers every payload the chat
protocol handling inspects. -/
inductive Json where
  | null
  | bool (bv : Bool)
  | num (iv : Int)
  | str (sv : String)
  | arr (xs : List Json)
  | obj (kvs : List (String × Json))

/-- The opening brace character. -/
def lbraceChar : Char := Char.ofNat 123

/-- The closing brace character. -/
def rbraceChar : Char := Char.ofNat 125

/-- JSON insignificant whitespace. -/
def isWsChar (c : Char) : Bool := c = ' ' || c = '\n' || c = '\t' || c = '\r'

/-- Skip leading whitespace. -/
def skipWs (cs : List Char) : List Char :=
  match cs with
  | c :: rest => if isWsChar c then skipWs rest else cs
  | [] => []

/-- JSON string escape characters. -/
def escChar (e : Char) : Option Char :=
  if e = 'n' then some '\n'
  else if e = 't' then some '\t'
  else if e = 'r' then some '\r'
  else if e = '"' then some '"'
  else if e = '\\' then some '\\'
  else if e = '/' then some '/'
  else if e = 'b' then some (Char.ofNat 8)
  else if e = 'f' then some (Char.ofNat 12)
  else none

/-- Parse the body of a JSON string (after the opening quote), returning the
decoded string and the rest of the input. -/
def parseStringBody : List Char → Option (String × List Char)
  | [] => none
  | '"' :: rest => some ("", rest)
  | '\\' :: e :: rest =>
    match escChar e with
    | some c => (parseStringBody rest).map (fun p => (c.toString ++ p.1, p.2))
    | none => none
  | c :: rest =>
    if c = '\\' then none
    else (parseStringBody rest).map (fun p => (c.toString ++ p.1, p.2))

/-- Split a run of leading decimal digits from the input. -/
def takeDigits : List Char → (List Char × List Char)
  | [] => ([], [])
  | c :: cs =>
    if c.isDigit then
      let p := takeDigits cs
      (c :: p.1, p.2)
    else ([], c :: cs)

/-- Decimal digits to a natural number. -/
def digitsToNat (ds : List Char) : Nat :=
  ds.foldl (fun n c => n * 10 + (c.toNat - 48)) 0

/-- Parse a JSON integer literal. -/
def parseNumber (cs : List Char) : Option (Json × List Char) :=
  match cs with
  | '-' :: rest =>
    match takeDigits rest with
    | ([], _) => none
    | (ds, r) => some (Json.num (-(digitsToNat ds : Int)), r)
  | _ =>
    match takeDigits cs with
    | ([], _) => none
    | (ds, r) => some (Json.num (digitsToNat ds), r)

mutual

/-- Recursive-descent JSON value grammar (fuel-indexed). -/
def parseValue : Nat → List Char → Option (Json × List Char)
  | 0, _ => none
  | Nat.succ fuel, cs =>
    match skipWs cs with
    | [] => none
    | '"' :: rest => (parseStringBody rest).map (fun p => (Json.str p.1, p.2))
    | 't' :: 'r' :: 'u' :: 'e' :: rest => some (Json.bool true, rest)
    | 'f' :: 'a' :: 'l' :: 's' :: 'e' :: rest => some (Json.bool false, rest)
    | 'n' :: 'u' :: 'l' :: 'l' :: rest => some (Json.null, rest)
    | '[' :: rest =>
      (match skipWs rest with
       | ']' :: r2 => some (Json.arr [], r2)
       | cs2 => (parseArrayItems fuel cs2).map (fun p => (Json.arr p.1, p.2)))
    | c :: rest =>
      if c = lbraceChar then
        match skipWs rest with
        | [] => none
        | d :: r2 =>
          if d = rbraceChar then some (Json.obj [], r2)
          else (parseObjItems fuel (d :: r2)).map (fun p => (Json.obj p.1, p.2))
      else parseNumber (c :: rest)

/-- One-or-more comma-separated array items, consuming the closing bracket. -/
def parseArrayItems : Nat → List Char → Option (List Json × List Char)
  | 0, _ => none
  | Nat.succ fuel, cs =>
    match parseValue fuel cs with
    | none => none
    | some (v, rest) =>
      match skipWs rest with
      | ',' :: rest2 => (parseArrayItems fuel (skipWs rest2)).map (fun p => (v :: p.1, p.2))
      | ']' :: rest2 => some ([v], rest2)
      | _ => none

/-- One-or-more comma-separated object members, consuming the closing brace. -/
def parseObjItems : Nat → List Char → Option (List (String × Json) × List Char)
  | 0, _ => none
  | Nat.succ fuel, cs =>
    match cs with
    | '"' :: rest =>
      match parseStringBody rest with
      | none => none
      | some (k, rest2) =>
        match skipWs rest2 with
        | ':' :: rest3 =>
          match parseValue fuel rest3 with
          | none => none
          | some (v, rest4) =>
            (match skipWs rest4 with
             | ',' :: rest5 => (parseObjItems fuel (skipWs rest5)).map (fun p => ((k, v) :: p.1, p.2))
             | d :: rest5 => if d = rbraceChar then some ([(k, v)], rest5) else none
             | [] => none)
        | _ => none
    | _ => none

end

/-- Model of the JavaScript `JSON.parse` builtin: `none` means the builtin
throws a `SyntaxError`. -/
def JSON.parse (s : String) : Option Json :=
  match parseValue (s.toList.length + 1) s.toList with
  | some (v, rest) => if skipWs rest = [] then some v else none
  | none => none

/-- Last-occurrence lookup in a JavaScript object's property list (later
duplicate keys override earlier ones, as in object literals and
`JSON.parse`). -/
def lookupLast (fs : List (String × Json)) (k : String) : Option Json :=
  match fs with
  | [] => none
  | p :: rest =>
    match lookupLast rest k with
    | some v => some v
    | none => if p.1 = k then some p.2 else none

/-- JavaScript property access `v.k` on a value known not to be
`null`/`undefined`: `none` is JavaScript's `undefined`. -/
def Json.getField (j : Json) (k : String) : Option Json :=
  match j with
  | Json.obj fs => lookupLast fs k
  | _ => none

/-- JavaScript truthiness of a defined value. -/
def Json.truthy : Json → Bool
  | Json.null => false
  | Json.bool b => b
  | Json.num n => n != 0
  | Json.str s => s != ""
  | Json.arr _ => true
  | Json.obj _ => true

/-- JavaScript index access `v[0]` on a value known not to be
`null`/`undefined`. -/
def Json.indexZero (j : Json) : Option Json :=
  match j with
  | Json.arr xs => xs.head?
  | Json.str s =>
    (match s.toList with
     | [] => none
     | c :: _ => some (Json.str c.toString))
  | _ => none

/-- Join strings with commas, as `Array.prototype.join` does. -/
def joinCommas : List String → String
  | [] => ""
  | [s] => s
  | s :: rest => s ++ "," ++ joinCommas rest

mutual

/-- JavaScript string coercion (as applied by `+` and template literals). -/
def Json.jsToString : Json → String
  | Json.null => "null"
  | Json.bool true => "true"
  | Json.bool false => "false"
  | Json.num n => toString n
  | Json.str s => s
  | Json.arr xs => joinCommas (jsToStringArrayElems xs)
  | Json.obj _ => "[object Object]"

/-- Array elements under `Array.prototype.join`: `null` becomes empty. -/
def jsToStringArrayElems : List Json → List String
  | [] => []
  | j :: rest =>
    (match j with
     | Json.null => ""
     | _ => Json.jsToString j) :: jsToStringArrayElems rest

end

/-- Optional chaining `x?.k`: `undefined`/`null` receivers yield `undefined`. -/
def optDot (x : Option Json) (k : String) : Option Json :=
  match x with
  | none => none
  | some Json.null => none
  | some v => v.getField k

/-- Optional chaining `x?.[0]`. -/
def optIndexZero (x : Option Json) : Option Json :=
  match x with
  | none => none
  | some Json.null => none
  | some v => v.indexZero

/-- The JavaScript expression `x || ''` followed by use as a string: falsy
values collapse to the empty string, anything else is string-coerced. -/
def jsOrEmpty (x : Option Json) : String :=
  match x with
  | some v => if v.truthy then v.jsToString else ""
  | none => ""

/-- A template-literal interpolation slot: `undefined` prints as the word
undefined, everything else by string coercion. -/
def jsTemplateStr (x : Option Json) : String :=
  match x with
  | none => "undefined"
  | some v => v.jsToString

/-- Whether the first list is a prefix of the second. -/
def listStartsWith (pre s : List Char) : Bool :=
  match pre, s with
  | [], _ => true
  | _, [] => false
  | a :: as, b :: bs => if a = b then listStartsWith as bs else false

/-- Whether `needle` occurs contiguously inside `hay`
(`String.prototype.includes`). -/
def containsSeq (needle : List Char) : List Char → Bool
  | [] => listStartsWith needle []
  | c :: cs => listStartsWith needle (c :: cs) || containsSeq needle cs

/-- `String.prototype.split` on a newline separator. -/
def splitNewlinesAux (acc : List Char) : List Char → List String
  | [] => [String.mk acc.reverse]
  | c :: cs =>
    if c = '\n' then String.mk acc.reverse :: splitNewlinesAux [] cs
    else splitNewlinesAux (c :: acc) cs

/-- Drop leading whitespace characters. -/
def dropWhileWsChars : List Char → List Char
  | [] => []
  | c :: cs => if isWsChar c then dropWhileWsChars cs else c :: cs

/-- `String.prototype.trim`. -/
def jsTrim (s : String) : String :=
  String.mk ((dropWhileWsChars ((dropWhileWsChars s.toList).reverse)).reverse)

/-- The per-chunk line framing of the streaming loops:
`chunk.split('\n').filter(line => line.trim() !== '')`. -/
def splitLines (chunk : String) : List String :=
  (splitNewlinesAux [] chunk.toList).filter (fun l => jsTrim l != "")

/-- Concatenation of a list of strings, in order. -/
def concatList : List String → String
  | [] => ""
  | s :: rest => s ++ concatList rest

/-- A settled HTTP response as the services observe it: the `ok` flag,
`statusText`, and the body as the list of text chunks successively
delivered by `response.body.getReader()` (for `response.json()` the chunks
are read to the end and concatenated). -/
structure HttpResponse where
  ok : Bool
  statusText : String
  chunks : List String
deriving DecidableEq

/-- The whole response body. -/
def HttpResponse.bodyText (r : HttpResponse) : String := concatList r.chunks

/-- The line sequence the OpenAI/Anthropic loops iterate over: each chunk is
split and filtered independently, in chunk order. -/
def HttpResponse.respLines (r : HttpResponse) : List String :=
  (r.chunks.map splitLines).flatten

/-- How a chat call can fail (`Promise` rejection values). -/
inductive JsError where
  /-- `throw new Error(msg)`. -/
  | errorMsg (msg : String)
  /-- `SyntaxError` escaping from `JSON.parse` / `response.json()`. -/
  | parseExn
  /-- `TypeError` from property access on `null`/`undefined`. -/
  | typeExn
deriving DecidableEq

/-- Decidable equality for settled promise results. -/
instance exceptDecEq {ε α : Type} [DecidableEq ε] [DecidableEq α] :
    DecidableEq (Except ε α) := fun a b =>
  match a, b with
  | Except.ok x, Except.ok y =>
    match decEq x y with
    | isTrue h => isTrue (congrArg Except.ok h)
    | isFalse h => isFalse (fun he => h (Except.ok.inj he))
  | Except.error x, Except.error y =>
    match decEq x y with
    | isTrue h => isTrue (congrArg Except.error h)
    | isFalse h => isFalse (fun he => h (Except.error.inj he))
  | Except.ok _, Except.error _ => isFalse (fun he => Except.noConfusion he)
  | Except.error _, Except.ok _ => isFalse (fun he => Except.noConfusion he)

/-- Observable outcome of one `chat()` call with an `onStream` callback:
the ordered list of arguments passed to the callback, and the settled
result of the returned promise. -/
structure ChatOutcome where
  emitted : List String
  result : Except JsError String
deriving DecidableEq

/-- The streaming loop state: `fullResponse` accumulator plus the trace of
`onStream` invocations. -/
structure StreamState where
  fullResponse : String
  emitted : List String
deriving DecidableEq

/-- Initial streaming state (`let fullResponse = ''`). -/
def initState : StreamState := StreamState.mk "" []

/-- OpenAI per-event extraction
`data.choices[0]?.delta?.content || ''` with JavaScript exception
semantics: `Except.error` is a thrown `TypeError` (caught by the
surrounding per-line `try`). -/
def openaiExtract (data : Json) : Except Unit String :=
  match data with
  | Json.null => Except.error ()
  | _ =>
    match data.getField "choices" with
    | none => Except.error ()
    | some Json.null => Except.error ()
    | some choices =>
      Except.ok (jsOrEmpty (optDot (optDot choices.indexZero "delta") "content"))

/-- Anthropic per-event extraction `data.content?.[0]?.text || ''`. -/
def anthropicExtract (data : Json) : Except Unit String :=
  match data with
  | Json.null => Except.error ()
  | _ =>
    Except.ok (jsOrEmpty (optDot (optIndexZero (data.getField "content")) "text"))

/-- One line of the OpenAI/Anthropic streaming loop: the guard
`line.startsWith('data: ') && !line.includes('[DONE]')`, then
`JSON.parse(line.substring(6))` and the provider extraction inside
`try ... catch`.  `some c` means the loop appends `c` to `fullResponse`
and calls `onStream(c)`; `none` means the line is skipped. -/
def processLine (extract : Json → Except Unit String) (line : String) : Option String :=
  if listStartsWith ("data: ".toList) line.toList
      && ! containsSeq ("[DONE]".toList) line.toList then
    match JSON.parse (String.mk (line.toList.drop 6)) with
    | none => none
    | some data =>
      match extract data with
      | Except.error _ => none
      | Except.ok content => some content
  else none

/-- Effect of one line on the loop state. -/
def stepLine (extract : Json → Except Unit String) (st : StreamState) (line : String) :
    StreamState :=
  match processLine extract line with
  | none => st
  | some content =>
    StreamState.mk (st.fullResponse ++ content) (st.emitted ++ [content])

/-- The OpenAI/Anthropic reader loop: each network chunk is decoded with
`decoder.decode(value)` (no cross-chunk state), split into lines, and the
lines are processed in order. -/
def lineFramedStream (extract : Json → Except Unit String) (chunks : List String) :
    StreamState :=
  chunks.foldl (fun st chunk => (splitLines chunk).foldl (stepLine extract) st) initState

/-- `errorData.error.message || errorData.error.code` under a template
literal, as in the OpenAI non-ok branch. -/
def openaiErrMsgOrCode (e : Json) : String :=
  match e.getField "message" with
  | some mv => if mv.truthy then jsTemplateStr (some mv) else jsTemplateStr (e.getField "code")
  | none => jsTemplateStr (e.getField "code")

/-- OpenAI non-ok branch given the parsed (non-`null`) `errorData`:
`if (errorData.error) throw new Error(...)` else a statusText-based
error. -/
def openaiErrorFromObj (statusText : String) (errorData : Json) : JsError :=
  match errorData.getField "error" with
  | some e =>
    if e.truthy then JsError.errorMsg ("OpenAI API错误: " ++ openaiErrMsgOrCode e)
    else JsError.errorMsg ("OpenAI API错误: " ++ statusText)
  | none => JsError.errorMsg ("OpenAI API错误: " ++ statusText)

/-- OpenAI non-ok branch over the `response.json()` outcome: a non-JSON
body makes `response.json()` itself reject, a `null` body throws a
`TypeError` at `errorData.error`. -/
def openaiErrorFromParsed (statusText : String) : Option Json → JsError
  | none => JsError.parseExn
  | some Json.null => JsError.typeExn
  | some errorData => openaiErrorFromObj statusText errorData

/-- OpenAI non-ok branch as a function of the response. -/
def OpenAIService.errorOutcome (resp : HttpResponse) : JsError :=
  openaiErrorFromParsed resp.statusText (JSON.parse resp.bodyText)

/-- Anthropic/Google non-ok branch given the parsed (non-`null`)
`errorData`:
`throw new Error(head + (errorData.error?.message || response.statusText))`. -/
def sharedErrorFromObj (head statusText : String) (errorData : Json) : JsError :=
  match optDot (errorData.getField "error") "message" with
  | some mv =>
    if mv.truthy then JsError.errorMsg (head ++ mv.jsToString)
    else JsError.errorMsg (head ++ statusText)
  | none => JsError.errorMsg (head ++ statusText)

/-- Anthropic/Google non-ok branch over the `response.json()` outcome. -/
def sharedErrorFromParsed (head statusText : String) : Option Json → JsError
  | none => JsError.parseExn
  | some Json.null => JsError.typeExn
  | some errorData => sharedErrorFromObj head statusText errorData

/-- Anthropic/Google non-ok branch as a function of the response. -/
def sharedErrorOutcome (head : String) (resp : HttpResponse) : JsError :=
  sharedErrorFromParsed head resp.statusText (JSON.parse resp.bodyText)

/-- Anthropic non-ok branch. -/
def AnthropicService.errorOutcome (resp : HttpResponse) : JsError :=
  sharedErrorOutcome "Anthropic API错误: " resp

/-- Google non-ok branch. -/
def GoogleService.errorOutcome (resp : HttpResponse) : JsError :=
  sharedErrorOutcome "Google API错误: " resp

/-- `OpenAIService.chat` with an `onStream` callback, as a function of the
observed HTTP response (src/src/App.tsx, streaming branch). -/
def OpenAIService.chat (resp : HttpResponse) : ChatOutcome :=
  if resp.ok then
    ChatOutcome.mk (lineFramedStream openaiExtract resp.chunks).emitted
      (Except.ok (lineFramedStream openaiExtract resp.chunks).fullResponse)
  else ChatOutcome.mk [] (Except.error (OpenAIService.errorOutcome resp))

/-- `AnthropicService.chat` with an `onStream` callback. -/
def AnthropicService.chat (resp : HttpResponse) : ChatOutcome :=
  if resp.ok then
    ChatOutcome.mk (lineFramedStream anthropicExtract resp.chunks).emitted
      (Except.ok (lineFramedStream anthropicExtract resp.chunks).fullResponse)
  else ChatOutcome.mk [] (Except.error (AnthropicService.errorOutcome resp))

/-- The optional-chain tail of the Google guard:
`cands[0]?.content?.parts?.[0]?.text` for a truthy `cands`. -/
def googleTextPath (cands : Json) : Option Json :=
  optDot (optIndexZero (optDot (optDot cands.indexZero "content") "parts")) "text"

/-- The trailing `?.text` value under the Google guard: only a truthy text
value passes, and it is then emitted string-coerced. -/
def googleEmitOfText : Option Json → Option String
  | some v => if v.truthy then some v.jsToString else none
  | none => none

/-- The Google guard
`data.candidates && data.candidates[0]?.content?.parts?.[0]?.text` over the
`data.candidates` access result. -/
def googleGuardEmit : Option Json → Option String
  | none => none
  | some cands =>
    if cands.truthy then googleEmitOfText (googleTextPath cands) else none

/-- One element of Google's parsed response array: emit its text fragment
when the guard passes.  `Except.error` is the `TypeError` on a `null`
element, which the surrounding `catch` turns into a fatal decode error. -/
def googleElemText (data : Json) : Except Unit (Option String) :=
  match data with
  | Json.null => Except.error ()
  | _ => Except.ok (googleGuardEmit (data.getField "candidates"))

/-- Iteration over Google's response array: emitted deltas accumulate, and
a thrown `TypeError` aborts the call through the `catch` that rethrows
the fatal decode error. -/
def googleIter (st : StreamState) : List Json → ChatOutcome
  | [] => ChatOutcome.mk st.emitted (Except.ok st.fullResponse)
  | d :: rest =>
    match googleElemText d with
    | Except.error _ =>
      ChatOutcome.mk st.emitted (Except.error (JsError.errorMsg "解析 Google API 响应失败"))
    | Except.ok none => googleIter st rest
    | Except.ok (some c) =>
      googleIter (StreamState.mk (st.fullResponse ++ c) (st.emitted ++ [c])) rest

/-- `GoogleService.chat` with an `onStream` callback: the whole body is
buffered (`decoder.decode(value, {stream: true})` accumulation), trimmed,
parsed as one JSON array, and iterated. -/
def GoogleService.chat (resp : HttpResponse) : ChatOutcome :=
  if resp.ok then
    match JSON.parse (jsTrim resp.bodyText) with
    | some (Json.arr elems) => googleIter initState elems
    | some _ => ChatOutcome.mk [] (Except.error (JsError.errorMsg "解析 Google API 响应失败"))
    | none => ChatOutcome.mk [] (Except.error (JsError.errorMsg "解析 Google API 响应失败"))
  else ChatOutcome.mk [] (Except.error (GoogleService.errorOutcome resp))

/-- Whether a string parses as JSON with an array at the top level. -/
def parsesToArray (s : String) : Bool :=
  match JSON.parse s with
  | some (Json.arr _) => true
  | _ => false

/-- Outcome of the `fetch` inside `validateKey`: either a settled response
(of any status) or a network-level rejection. -/
inductive FetchOutcome where
  | success (resp : HttpResponse)
  | netError
deriving DecidableEq

/-- `OpenAIService.validateKey`: `try { ...; return response.ok } catch { return false }`. -/
def OpenAIService.validateKey : FetchOutcome → Bool
  | FetchOutcome.success r => r.ok
  | FetchOutcome.netError => false

/-- `AnthropicService.validateKey`. -/
def AnthropicService.validateKey : FetchOutcome → Bool
  | FetchOutcome.success r => r.ok
  | FetchOutcome.netError => false

/-- `GoogleService.validateKey`. -/
def GoogleService.validateKey : FetchOutcome → Bool
  | FetchOutcome.success r => r.ok
  | FetchOutcome.netError => false

/-- ASCII lower-casing, modelling `String.prototype.toLowerCase` on the
provider identifiers the factory compares against. -/
def charLower (c : Char) : Char :=
  if 65 ≤ c.toNat && c.toNat ≤ 90 then Char.ofNat (c.toNat + 32) else c

/-- `type.toLowerCase()`. -/
def jsToLowerCase (s : String) : String := String.mk (s.toList.map charLower)

/-- The constructed service instances (their configuration state). -/
inductive AIServiceKind where
  | openaiSvc (apiKey modelName baseUrl : String)
  | anthropicSvc (apiKey modelName : String)
  | googleSvc (apiKey modelName : String)
deriving DecidableEq

/-- `new OpenAIService(apiKey, modelName, baseUrl)`: the `modelName`
default parameter applies on `undefined`, and `baseUrl || '...'` also
replaces an empty string. -/
def OpenAIService.make (apiKey : String) (modelName : Option String)
    (baseUrl : Option String) : AIServiceKind :=
  AIServiceKind.openaiSvc apiKey (modelName.getD "gpt-3.5-turbo")
    (match baseUrl with
     | some b => if b = "" then "https://api.openai.com/v1" else b
     | none => "https://api.openai.com/v1")

/-- `new AnthropicService(apiKey, modelName)`. -/
def AnthropicService.make (apiKey : String) (modelName : Option String) : AIServiceKind :=
  AIServiceKind.anthropicSvc apiKey (modelName.getD "claude-3-opus")

/-- `new GoogleService(apiKey, modelName)`. -/
def GoogleService.make (apiKey : String) (modelName : Option String) : AIServiceKind :=
  AIServiceKind.googleSvc apiKey (modelName.getD "gemini-pro")

/-- `AIServiceFactory.createService`: `switch (type.toLowerCase())` with a
throwing default branch.  Construction is a pure computation — no network
request is issued on either path. -/
def AIServiceFactory.createService (type apiKey : String) (modelName baseUrl : Option String) :
    Except String AIServiceKind :=
  if jsToLowerCase type = "openai" then
    Except.ok (OpenAIService.make apiKey modelName baseUrl)
  else if jsToLowerCase type = "anthropic" then
    Except.ok (AnthropicService.make apiKey modelName)
  else if jsToLowerCase type = "google" then
    Except.ok (GoogleService.make apiKey modelName)
  else Except.error ("Unsupported AI service type: " ++ type)

/-- One message of the chat history. -/
structure ChatMessage where
  role : String
  content : String
deriving DecidableEq

/-- The `messages` array as serialised into the request body. -/
def messagesJson (ms : List ChatMessage) : Json :=
  Json.arr (ms.map (fun m => Json.obj [("role", Json.str m.role), ("content", Json.str m.content)]))

/-- Adding one property to a JavaScript object under construction: an
existing key keeps its position but its value is replaced, a new key is
appended. -/
def jsObjInsert (fs : List (String × Json)) (k : String) (v : Json) : List (String × Json) :=
  if fs.any (fun p => p.1 = k) then fs.map (fun p => if p.1 = k then (k, v) else p)
  else fs ++ [(k, v)]

/-- Object-literal spread `{...base-fields, ...extra}`: the spread source's
properties are assigned in order after the literal's own fields. -/
def jsSpread (base extra : List (String × Json)) : List (String × Json) :=
  extra.foldl (fun acc p => jsObjInsert acc p.1 p.2) base

/-- The property list of an object value. -/
def Json.objFields : Json → List (String × Json)
  | Json.obj fs => fs
  | _ => []

/-- OpenAI request body
`{model, messages, stream: onStream !== undefined, ...options}`. -/
def OpenAIService.requestBody (modelName : String) (messages : List ChatMessage)
    (hasOnStream : Bool) (options : Option (List (String × Json))) : Json :=
  Json.obj (jsSpread
    [("model", Json.str modelName),
     ("messages", messagesJson messages),
     ("stream", Json.bool hasOnStream)]
    (options.getD []))

/-- Anthropic request body
`{model, messages, max_tokens: options?.max_tokens || 1000, stream, ...options}`. -/
def AnthropicService.requestBody (modelName : String) (messages : List ChatMessage)
    (hasOnStream : Bool) (options : Option (List (String × Json))) : Json :=
  Json.obj (jsSpread
    [("model", Json.str modelName),
     ("messages", messagesJson messages),
     ("max_tokens",
       match options with
       | none => Json.num 1000
       | some fs =>
         match lookupLast fs "max_tokens" with
         | some v => if v.truthy then v else Json.num 1000
         | none => Json.num 1000),
     ("stream", Json.bool hasOnStream)]
    (options.getD []))

theorem strAppendAssoc (a b c : String) : a ++ b ++ c = a ++ (b ++ c) := by
  cases a with | mk da =>
  cases b with | mk db =>
  cases c with | mk dc =>
  show String.mk ((da ++ db) ++ dc) = String.mk (da ++ (db ++ dc))
  rw [List.append_assoc]

theorem strAppendEmpty (a : String) : a ++ "" = a := by
  cases a with | mk da =>
  show String.mk (da ++ []) = String.mk da
  rw [List.append_nil]

theorem strEmptyAppend (a : String) : "" ++ a = a := by
  cases a with | mk da =>
  rfl

theorem concatList_append (l1 l2 : List String) :
    concatList (l1 ++ l2) = concatList l1 ++ concatList l2 := by
  induction l1 with
  | nil => rw [List.nil_append, concatList, strEmptyAppend]
  | cons s rest ih =>
    rw [List.cons_append, concatList, concatList, ih, strAppendAssoc]

theorem foldl_stepLine_emitted (ex : Json → Except Unit String) (lines : List String)
    (st : StreamState) :
    (lines.foldl (stepLine ex) st).emitted = st.emitted ++ lines.filterMap (processLine ex) := by
  induction lines generalizing st with
  | nil => simp
  | cons l rest ih =>
    rw [List.foldl_cons, List.filterMap_cons, ih]
    cases h : processLine ex l with
    | none => rw [show stepLine ex st l = st by simp [stepLine, h]]
    | some c =>
      rw [show stepLine ex st l
          = StreamState.mk (st.fullResponse ++ c) (st.emitted ++ [c]) by simp [stepLine, h]]
      simp

theorem foldl_stepLine_full (ex : Json → Except Unit String) (lines : List String)
    (st : StreamState) :
    (lines.foldl (stepLine ex) st).fullResponse
      = st.fullResponse ++ concatList (lines.filterMap (processLine ex)) := by
  induction lines generalizing st with
  | nil => simp [concatList, strAppendEmpty]
  | cons l rest ih =>
    rw [List.foldl_cons, List.filterMap_cons]
    cases h : processLine ex l with
    | none => rw [show stepLine ex st l = st by simp [stepLine, h]]; exact ih st
    | some c =>
      rw [show stepLine ex st l
          = StreamState.mk (st.fullResponse ++ c) (st.emitted ++ [c]) by simp [stepLine, h]]
      rw [ih, concatList, strAppendAssoc]

theorem lineFramedStream_eq_flatten (ex : Json → Except Unit String) (chunks : List String) :
    lineFramedStream ex chunks
      = ((chunks.map splitLines).flatten).foldl (stepLine ex) initState := by
  suffices h : ∀ st, chunks.foldl (fun s c => (splitLines c).foldl (stepLine ex) s) st
      = ((chunks.map splitLines).flatten).foldl (stepLine ex) st from h initState
  induction chunks with
  | nil => intro st; rfl
  | cons c rest ih =>
    intro st
    rw [List.foldl_cons, List.map_cons, List.flatten_cons, List.foldl_append]
    exact ih _

theorem lineFramedStream_emitted (ex : Json → Except Unit String) (chunks : List String) :
    (lineFramedStream ex chunks).emitted
      = ((chunks.map splitLines).flatten).filterMap (processLine ex) := by
  rw [lineFramedStream_eq_flatten, foldl_stepLine_emitted]
  rfl

theorem lineFramedStream_full (ex : Json → Except Unit String) (chunks : List String) :
    (lineFramedStream ex chunks).fullResponse
      = concatList (((chunks.map splitLines).flatten).filterMap (processLine ex)) := by
  rw [lineFramedStream_eq_flatten, foldl_stepLine_full]
  exact strEmptyAppend _

theorem filterMap_flatten {α β : Type} (p : α → Option β) (ls : List (List α)) :
    ls.flatten.filterMap p = (ls.map (fun l => l.filterMap p)).flatten := by
  induction ls with
  | nil => rfl
  | cons l rest ih => simp [List.filterMap_append, ih]

theorem googleIter_full_eq (elems : List Json) (st : StreamState) (s : String)
    (hinv : st.fullResponse = concatList st.emitted)
    (hok : (googleIter st elems).result = Except.ok s) :
    s = concatList (googleIter st elems).emitted := by
  induction elems generalizing st with
  | nil =>
    simp only [googleIter] at hok ⊢
    cases hok
    exact hinv
  | cons d rest ih =>
    simp only [googleIter] at hok ⊢
    revert hok
    cases h : googleElemText d with
    | error e => intro hok; exact Except.noConfusion hok
    | ok o =>
      cases o with
      | none => intro hok; exact ih st hinv hok
      | some c =>
        intro hok
        exact ih (StreamState.mk (st.fullResponse ++ c) (st.emitted ++ [c]))
          (by rw [hinv, concatList_append, concatList, concatList, strAppendEmpty]) hok

theorem processLine_done_none (ex : Json → Except Unit String) (line : String)
    (h : containsSeq ("[DONE]".toList) line.toList = true) :
    processLine ex line = none := by
  unfold processLine
  rw [h]
  simp

theorem lookupLast_append_some (l1 l2 : List (String × Json)) (k : String) (v : Json)
    (h : lookupLast l2 k = some v) : lookupLast (l1 ++ l2) k = some v := by
  induction l1 with
  | nil => rw [List.nil_append]; exact h
  | cons p rest ih =>
    rw [List.cons_append, lookupLast, ih]

theorem lookupLast_append_none (l1 l2 : List (String × Json)) (k : String)
    (h : lookupLast l2 k = none) : lookupLast (l1 ++ l2) k = lookupLast l1 k := by
  induction l1 with
  | nil => rw [List.nil_append, h]; rfl
  | cons p rest ih =>
    rw [List.cons_append, lookupLast, ih]
    rfl

theorem map_replace_id (fs : List (String × Json)) (k : String) (v : Json)
    (h : fs.any (fun p => p.1 = k) = false) :
    fs.map (fun p => if p.1 = k then (k, v) else p) = fs := by
  induction fs with
  | nil => rfl
  | cons q qs ih =>
    simp only [List.any_cons, Bool.or_eq_false_iff, decide_eq_false_iff_not] at h
    rw [List.map_cons, if_neg h.1, ih h.2]

theorem lookupLast_no_key (fs : List (String × Json)) (k : String)
    (h : fs.any (fun p => p.1 = k) = false) : lookupLast fs k = none := by
  induction fs with
  | nil => rfl
  | cons p rest ih =>
    simp only [List.any_cons, Bool.or_eq_false_iff, decide_eq_false_iff_not] at h
    rw [lookupLast, ih h.2, if_neg h.1]

theorem lookupLast_map_self (fs : List (String × Json)) (k : String) (v : Json)
    (h : fs.any (fun p => p.1 = k) = true) :
    lookupLast (fs.map (fun p => if p.1 = k then (k, v) else p)) k = some v := by
  induction fs with
  | nil => simp at h
  | cons p rest ih =>
    rw [List.map_cons, lookupLast]
    cases hr : rest.any (fun p => p.1 = k) with
    | true => rw [ih hr]
    | false =>
      rw [map_replace_id rest k v hr, lookupLast_no_key rest k hr]
      have hp : p.1 = k := by
        rw [List.any_cons, hr, Bool.or_false] at h
        simpa using h
      simp [hp]

theorem lookupLast_insert_self (fs : List (String × Json)) (k : String) (v : Json) :
    lookupLast (jsObjInsert fs k v) k = some v := by
  unfold jsObjInsert
  by_cases h : fs.any (fun p => p.1 = k) = true
  · rw [if_pos h]
    exact lookupLast_map_self fs k v h
  · rw [if_neg h]
    exact lookupLast_append_some fs [(k, v)] k v (by simp [lookupLast])

theorem lookupLast_map_other (fs : List (String × Json)) (k : String) (v : Json)
    (q : String) (hq : q ≠ k) :
    lookupLast (fs.map (fun p => if p.1 = k then (k, v) else p)) q = lookupLast fs q := by
  induction fs with
  | nil => rfl
  | cons p rest ih =>
    rw [List.map_cons, lookupLast, ih, lookupLast]
    by_cases hp : p.1 = k
    · have h1 : ¬ k = q := fun he => hq he.symm
      have h2 : ¬ p.1 = q := fun he => h1 (hp ▸ he)
      rw [if_pos hp]
      cases lookupLast rest q
      · simp [h1, h2]
      · rfl
    · rw [if_neg hp]

theorem lookupLast_insert_other (fs : List (String × Json)) (k : String) (v : Json)
    (q : String) (hq : q ≠ k) :
    lookupLast (jsObjInsert fs k v) q = lookupLast fs q := by
  unfold jsObjInsert
  by_cases h : fs.any (fun p => p.1 = k) = true
  · rw [if_pos h]
    exact lookupLast_map_other fs k v q hq
  · rw [if_neg h]
    have hkq : ¬ k = q := fun he => hq he.symm
    exact lookupLast_append_none fs [(k, v)] q (by simp [lookupLast, hkq])

theorem lookupLast_spread_none (extra : List (String × Json)) (base : List (String × Json))
    (k : String) (h : lookupLast extra k = none) :
    lookupLast (jsSpread base extra) k = lookupLast base k := by
  induction extra generalizing base with
  | nil => rfl
  | cons p rest ih =>
    have hrest : lookupLast rest k = none := by
      cases hh : lookupLast rest k with
      | none => rfl
      | some w => rw [lookupLast, hh] at h; exact absurd h (by simp)
    have hp : p.1 ≠ k := by
      intro hpk
      rw [lookupLast, hrest, if_pos hpk] at h
      exact absurd h (by simp)
    show lookupLast (jsSpread (jsObjInsert base p.1 p.2) rest) k = lookupLast base k
    rw [ih (jsObjInsert base p.1 p.2) hrest,
      lookupLast_insert_other base p.1 p.2 k (fun he => hp he.symm)]

theorem lookupLast_spread_some (extra : List (String × Json)) (base : List (String × Json))
    (k : String) (v : Json) (h : lookupLast extra k = some v) :
    lookupLast (jsSpread base extra) k = some v := by
  induction extra generalizing base with
  | nil => simp [lookupLast] at h
  | cons p rest ih =>
    show lookupLast (jsSpread (jsObjInsert base p.1 p.2) rest) k = some v
    cases hh : lookupLast rest k with
    | some w =>
      have hw : w = v := by
        rw [lookupLast, hh] at h
        exact Option.some.inj h
      exact ih (jsObjInsert base p.1 p.2) (hw ▸ hh)
    | none =>
      have hp : p.1 = k ∧ p.2 = v := by
        rw [lookupLast, hh] at h
        by_cases hpk : p.1 = k
        · rw [if_pos hpk] at h
          exact ⟨hpk, Option.some.inj h⟩
        · rw [if_neg hpk] at h
          exact absurd h (by simp)
      rw [lookupLast_spread_none rest (jsObjInsert base p.1 p.2) k hh, hp.1, hp.2]
      exact lookupLast_insert_self base k v

theorem truthy_of_getField_some (j : Json) (k : String) (v : Json)
    (h : j.getField k = some v) : j.truthy = true := by
  cases j <;> simp_all [Json.getField, Json.truthy]

theorem getField_ne_null (j : Json) (k : String) (v : Json)
    (h : j.getField k = some v) : j ≠ Json.null := by
  cases j <;> simp_all [Json.getField]

theorem optDot_eq_getField (j : Json) (k : String) (h : j ≠ Json.null) :
    optDot (some j) k = j.getField k := by
  cases j <;> first | exact absurd rfl h | rfl

theorem lineFramedStream_inv (ex : Json → Except Unit String) (chunks : List String) :
    (lineFramedStream ex chunks).fullResponse
      = concatList (lineFramedStream ex chunks).emitted := by
  rw [lineFramedStream_emitted, lineFramedStream_full]

/-- Claim C1: for every provider transport (OpenAI, Anthropic, Google), when
`chat()` is invoked with an `onDelta` callback and the HTTP response is
successful, the string the call resolves to equals the exact concatenation,
in emission order, of every delta argument passed to `onDelta` during that
call. -/
theorem C1_chat_resolves_to_delta_concat (resp : HttpResponse) (s : String) :
    ((OpenAIService.chat resp).result = Except.ok s →
      s = concatList (OpenAIService.chat resp).emitted)
  ∧ ((AnthropicService.chat resp).result = Except.ok s →
      s = concatList (AnthropicService.chat resp).emitted)
  ∧ ((GoogleService.chat resp).result = Except.ok s →
      s = concatList (GoogleService.chat resp).emitted) := by
  refine ⟨?_, ?_, ?_⟩
  · intro h
    unfold OpenAIService.chat at h ⊢
    by_cases hok : resp.ok = true
    · rw [if_pos hok] at h ⊢
      have hs := Except.ok.inj h
      rw [← hs]
      exact lineFramedStream_inv openaiExtract resp.chunks
    · rw [if_neg hok] at h
      exact Except.noConfusion h
  · intro h
    unfold AnthropicService.chat at h ⊢
    by_cases hok : resp.ok = true
    · rw [if_pos hok] at h ⊢
      have hs := Except.ok.inj h
      rw [← hs]
      exact lineFramedStream_inv anthropicExtract resp.chunks
    · rw [if_neg hok] at h
      exact Except.noConfusion h
  · intro h
    unfold GoogleService.chat at h ⊢
    by_cases hok : resp.ok = true
    · rw [if_pos hok] at h ⊢
      revert h
      cases JSON.parse (jsTrim resp.bodyText) with
      | none => intro h; exact Except.noConfusion h
      | some j =>
        cases j with
        | arr elems => intro h; exact googleIter_full_eq elems initState s rfl h
        | null => intro h; exact Except.noConfusion h
        | bool b => intro h; exact Except.noConfusion h
        | num n => intro h; exact Except.noConfusion h
        | str t => intro h; exact Except.noConfusion h
        | obj fs => intro h; exact Except.noConfusion h
    · rw [if_neg hok] at h
      exact Except.noConfusion h

theorem C1_chat_resolves_to_delta_concat_witness :
    "ab" = concatList (OpenAIService.chat (HttpResponse.mk true ""
      ["data: \x7b\"choices\":[\x7b\"delta\":\x7b\"content\":\"a\"\x7d\x7d]\x7d\ndata: \x7b\"choices\":[\x7b\"delta\":\x7b\"content\":\"b\"\x7d\x7d]\x7d"])).emitted
  ∧ "hi" = concatList (AnthropicService.chat (HttpResponse.mk true ""
      ["data: \x7b\"content\":[\x7b\"text\":\"hi\"\x7d]\x7d"])).emitted
  ∧ "Hello" = concatList (GoogleService.chat (HttpResponse.mk true ""
      ["[\x7b\"candidates\":[\x7b\"content\":\x7b\"parts\":[\x7b\"text\":\"Hel\"\x7d]\x7d\x7d]\x7d,",
       "\x7b\"candidates\":[\x7b\"content\":\x7b\"parts\":[\x7b\"text\":\"lo\"\x7d]\x7d\x7d]\x7d]"])).emitted :=
  ⟨(C1_chat_resolves_to_delta_concat _ "ab").1 rfl,
   (C1_chat_resolves_to_delta_concat _ "hi").2.1 rfl,
   (C1_chat_resolves_to_delta_concat _ "Hello").2.2 rfl⟩

/-- Claim C2 (counterexample): the claim says nothing after a
`data: [DONE]` line is processed, but the source only skips such a line
(`!line.includes('[DONE]')`) and keeps going — a well-formed data line
placed after `data: [DONE]` still yields its delta `"b"`, so the stream is
not terminated there. -/
theorem C2_done_counterexample :
    (OpenAIService.chat (HttpResponse.mk true ""
      ["data: \x7b\"choices\":[\x7b\"delta\":\x7b\"content\":\"a\"\x7d\x7d]\x7d\ndata: [DONE]\ndata: \x7b\"choices\":[\x7b\"delta\":\x7b\"content\":\"b\"\x7d\x7d]\x7d"])).emitted
      = ["a", "b"] := rfl

/-- Claim C2 (amended): for OpenAI and Anthropic streaming chat, a line
containing `[DONE]` is skipped without emitting a delta, but it does not
terminate processing — every line of the stream, before or after it, is
still processed in line order, each well-formed data line yielding exactly
its extracted delta. -/
theorem C2_amended_done_skipped_not_terminating :
    (∀ resp : HttpResponse, resp.ok = true →
        (OpenAIService.chat resp).emitted
          = resp.respLines.filterMap (processLine openaiExtract)
      ∧ (AnthropicService.chat resp).emitted
          = resp.respLines.filterMap (processLine anthropicExtract))
  ∧ (∀ line : String, containsSeq ("[DONE]".toList) line.toList = true →
        processLine openaiExtract line = none ∧ processLine anthropicExtract line = none) := by
  constructor
  · intro resp hok
    constructor
    · unfold OpenAIService.chat
      rw [if_pos hok]
      exact lineFramedStream_emitted openaiExtract resp.chunks
    · unfold AnthropicService.chat
      rw [if_pos hok]
      exact lineFramedStream_emitted anthropicExtract resp.chunks
  · intro line h
    exact ⟨processLine_done_none openaiExtract line h,
      processLine_done_none anthropicExtract line h⟩

theorem C2_amended_done_skipped_not_terminating_witness :
    ((OpenAIService.chat (HttpResponse.mk true "" ["data: [DONE]"])).emitted
      = (HttpResponse.mk true "" ["data: [DONE]"]).respLines.filterMap
          (processLine openaiExtract))
  ∧ processLine anthropicExtract "data: [DONE]" = none :=
  ⟨(C2_amended_done_skipped_not_terminating.1 (HttpResponse.mk true "" ["data: [DONE]"]) rfl).1,
   (C2_amended_done_skipped_not_terminating.2 "data: [DONE]" rfl).2⟩

/-- Claim C3 (counterexample): the claim says the incremental strategy
never passes an empty-string delta to the callback; but an OpenAI data
line whose parsed event carries no content produces `content || '' = ''`
and the source still calls `onStream('')`. -/
theorem C3_empty_delta_counterexample :
    (OpenAIService.chat (HttpResponse.mk true ""
      ["data: \x7b\"choices\":[\x7b\x7d]\x7d"])).emitted = [""] := rfl

/-- Claim C3 (amended): the policy is the reverse of the claim — the
incremental line-framed strategy (OpenAI, Anthropic) applies no
empty-delta filter and forwards the empty string whenever a well-formed
line extracts one, whereas the buffered Google strategy's truthiness guard
skips an element whose text fragment is the empty string, emitting
nothing for it. -/
theorem C3_amended_empty_delta_policy :
    (∀ (resp : HttpResponse) (line : String), resp.ok = true →
        resp.respLines = [line] → processLine openaiExtract line = some "" →
        (OpenAIService.chat resp).emitted = [""])
  ∧ (∀ (resp : HttpResponse) (line : String), resp.ok = true →
        resp.respLines = [line] → processLine anthropicExtract line = some "" →
        (AnthropicService.chat resp).emitted = [""])
  ∧ (∀ data cands : Json, data ≠ Json.null →
        data.getField "candidates" = some cands →
        googleTextPath cands = some (Json.str "") →
        googleElemText data = Except.ok none)
  ∧ (∀ (st : StreamState) (d : Json) (rest : List Json),
        googleElemText d = Except.ok none →
        googleIter st (d :: rest) = googleIter st rest) := by
  refine ⟨?_, ?_, ?_, ?_⟩
  · intro resp line hok hlines hline
    unfold OpenAIService.chat
    rw [if_pos hok]
    show (lineFramedStream openaiExtract resp.chunks).emitted = [""]
    rw [lineFramedStream_emitted]
    have hl : (resp.chunks.map splitLines).flatten = [line] := hlines
    rw [hl, List.filterMap_cons, hline]
    rfl
  · intro resp line hok hlines hline
    unfold AnthropicService.chat
    rw [if_pos hok]
    show (lineFramedStream anthropicExtract resp.chunks).emitted = [""]
    rw [lineFramedStream_emitted]
    have hl : (resp.chunks.map splitLines).flatten = [line] := hlines
    rw [hl, List.filterMap_cons, hline]
    rfl
  · intro data cands hnull hcand htext
    cases data with
    | null => exact absurd rfl hnull
    | bool b => simp [Json.getField] at hcand
    | num n => simp [Json.getField] at hcand
    | str t => simp [Json.getField] at hcand
    | arr xs => simp [Json.getField] at hcand
    | obj fs =>
      show Except.ok (googleGuardEmit ((Json.obj fs).getField "candidates")) = Except.ok none
      rw [hcand]
      by_cases ht : cands.truthy = true
      · rw [googleGuardEmit, if_pos ht, htext]
        rfl
      · rw [googleGuardEmit, if_neg ht]
  · intro st d rest h
    show (match googleElemText d with
          | Except.error _ =>
            ChatOutcome.mk st.emitted (Except.error (JsError.errorMsg "解析 Google API 响应失败"))
          | Except.ok none => googleIter st rest
          | Except.ok (some c) =>
            googleIter (StreamState.mk (st.fullResponse ++ c) (st.emitted ++ [c])) rest)
        = googleIter st rest
    rw [h]

theorem C3_amended_empty_delta_policy_witness :
    ((OpenAIService.chat (HttpResponse.mk true ""
        ["data: \x7b\"choices\":[\x7b\x7d]\x7d"])).emitted = [""])
  ∧ ((AnthropicService.chat (HttpResponse.mk true "" ["data: \x7b\x7d"])).emitted = [""])
  ∧ googleElemText (Json.obj [("candidates",
      Json.arr [Json.obj [("content",
        Json.obj [("parts", Json.arr [Json.obj [("text", Json.str "")]])])]])])
      = Except.ok none
  ∧ googleIter initState
      [Json.obj [("candidates",
        Json.arr [Json.obj [("content",
          Json.obj [("parts", Json.arr [Json.obj [("text", Json.str "")]])])]])]]
      = googleIter initState [] :=
  ⟨C3_amended_empty_delta_policy.1 (HttpResponse.mk true ""
      ["data: \x7b\"choices\":[\x7b\x7d]\x7d"]) _ rfl rfl rfl,
   C3_amended_empty_delta_policy.2.1 (HttpResponse.mk true "" ["data: \x7b\x7d"]) _ rfl rfl rfl,
   C3_amended_empty_delta_policy.2.2.1 _ _ (by simp) rfl rfl,
   C3_amended_empty_delta_policy.2.2.2 initState _ [] rfl⟩

/-- Claim C4 (counterexample): the claim says a response split at an
arbitrary position inside a `data: {json}` line yields the same deltas as
the unsplit response; but the source decodes and line-splits every chunk
independently, so splitting one valid data line into chunks `"da"` and
`"ta: ..."` loses its delta while the single-chunk delivery yields it. -/
theorem C4_chunk_split_counterexample :
    (OpenAIService.chat (HttpResponse.mk true ""
      ["da", "ta: \x7b\"choices\":[\x7b\"delta\":\x7b\"content\":\"a\"\x7d\x7d]\x7d"])).emitted = []
  ∧ (OpenAIService.chat (HttpResponse.mk true ""
      ["data: \x7b\"choices\":[\x7b\"delta\":\x7b\"content\":\"a\"\x7d\x7d]\x7d"])).emitted = ["a"] :=
  ⟨rfl, rfl⟩

/-- Claim C4 (amended): the incremental decoder (OpenAI, Anthropic) keeps
no state across network chunk boundaries — each chunk is decoded and
processed on its own, so the delta sequence is exactly the concatenation
of the per-chunk line processing, and a data line split across a chunk
boundary is not reassembled. -/
theorem C4_amended_no_cross_chunk_state (resp : HttpResponse) (hok : resp.ok = true) :
    (OpenAIService.chat resp).emitted
      = (resp.chunks.map (fun c => (splitLines c).filterMap (processLine openaiExtract))).flatten
  ∧ (AnthropicService.chat resp).emitted
      = (resp.chunks.map
          (fun c => (splitLines c).filterMap (processLine anthropicExtract))).flatten := by
  constructor
  · unfold OpenAIService.chat
    rw [if_pos hok]
    show (lineFramedStream openaiExtract resp.chunks).emitted = _
    rw [lineFramedStream_emitted, filterMap_flatten, List.map_map]
    rfl
  · unfold AnthropicService.chat
    rw [if_pos hok]
    show (lineFramedStream anthropicExtract resp.chunks).emitted = _
    rw [lineFramedStream_emitted, filterMap_flatten, List.map_map]
    rfl

theorem C4_amended_no_cross_chunk_state_witness :
    (OpenAIService.chat (HttpResponse.mk true ""
      ["da", "ta: \x7b\"choices\":[\x7b\"delta\":\x7b\"content\":\"a\"\x7d\x7d]\x7d"])).emitted
      = ((HttpResponse.mk true ""
          ["da", "ta: \x7b\"choices\":[\x7b\"delta\":\x7b\"content\":\"a\"\x7d\x7d]\x7d"]).chunks.map
            (fun c => (splitLines c).filterMap (processLine openaiExtract))).flatten :=
  (C4_amended_no_cross_chunk_state (HttpResponse.mk true ""
    ["da", "ta: \x7b\"choices\":[\x7b\"delta\":\x7b\"content\":\"a\"\x7d\x7d]\x7d"]) rfl).1

/-- Claim C5: for OpenAI and Anthropic streaming chat, a single data line
with a malformed JSON payload is skipped without aborting the call — a
stream whose lines are a well-formed non-empty line, a malformed line, and
another well-formed non-empty line yields exactly the two deltas, in
order, and the call resolves normally to their concatenation. -/
theorem C5_malformed_line_skipped (resp : HttpResponse) (l1 l2 l3 c1 c3 : String)
    (hok : resp.ok = true) (hlines : resp.respLines = [l1, l2, l3]) :
    (processLine openaiExtract l1 = some c1 → processLine openaiExtract l2 = none →
      processLine openaiExtract l3 = some c3 → c1 ≠ "" → c3 ≠ "" →
      (OpenAIService.chat resp).emitted = [c1, c3]
        ∧ (OpenAIService.chat resp).result = Except.ok (c1 ++ c3))
  ∧ (processLine anthropicExtract l1 = some c1 → processLine anthropicExtract l2 = none →
      processLine anthropicExtract l3 = some c3 → c1 ≠ "" → c3 ≠ "" →
      (AnthropicService.chat resp).emitted = [c1, c3]
        ∧ (AnthropicService.chat resp).result = Except.ok (c1 ++ c3)) := by
  have hl : (resp.chunks.map splitLines).flatten = [l1, l2, l3] := hlines
  constructor
  · intro h1 h2 h3 _ _
    constructor
    · unfold OpenAIService.chat
      rw [if_pos hok]
      show (lineFramedStream openaiExtract resp.chunks).emitted = [c1, c3]
      rw [lineFramedStream_emitted, hl, List.filterMap_cons, h1, List.filterMap_cons, h2,
        List.filterMap_cons, h3]
      rfl
    · unfold OpenAIService.chat
      rw [if_pos hok]
      show Except.ok (lineFramedStream openaiExtract resp.chunks).fullResponse
        = Except.ok (c1 ++ c3)
      rw [lineFramedStream_full, hl, List.filterMap_cons, h1, List.filterMap_cons, h2,
        List.filterMap_cons, h3]
      show Except.ok (concatList [c1, c3]) = Except.ok (c1 ++ c3)
      rw [concatList, concatList, concatList, strAppendEmpty]
  · intro h1 h2 h3 _ _
    constructor
    · unfold AnthropicService.chat
      rw [if_pos hok]
      show (lineFramedStream anthropicExtract resp.chunks).emitted = [c1, c3]
      rw [lineFramedStream_emitted, hl, List.filterMap_cons, h1, List.filterMap_cons, h2,
        List.filterMap_cons, h3]
      rfl
    · unfold AnthropicService.chat
      rw [if_pos hok]
      show Except.ok (lineFramedStream anthropicExtract resp.chunks).fullResponse
        = Except.ok (c1 ++ c3)
      rw [lineFramedStream_full, hl, List.filterMap_cons, h1, List.filterMap_cons, h2,
        List.filterMap_cons, h3]
      show Except.ok (concatList [c1, c3]) = Except.ok (c1 ++ c3)
      rw [concatList, concatList, concatList, strAppendEmpty]

theorem C5_malformed_line_skipped_witness :
    ((OpenAIService.chat (HttpResponse.mk true ""
      ["data: \x7b\"choices\":[\x7b\"delta\":\x7b\"content\":\"a\"\x7d\x7d]\x7d\ndata: \x7bbad\ndata: \x7b\"choices\":[\x7b\"delta\":\x7b\"content\":\"b\"\x7d\x7d]\x7d"])).emitted
        = ["a", "b"]
      ∧ (OpenAIService.chat (HttpResponse.mk true ""
        ["data: \x7b\"choices\":[\x7b\"delta\":\x7b\"content\":\"a\"\x7d\x7d]\x7d\ndata: \x7bbad\ndata: \x7b\"choices\":[\x7b\"delta\":\x7b\"content\":\"b\"\x7d\x7d]\x7d"])).result
        = Except.ok ("a" ++ "b"))
  ∧ ((AnthropicService.chat (HttpResponse.mk true ""
      ["data: \x7b\"content\":[\x7b\"text\":\"x\"\x7d]\x7d\ndata: \x7bbad\ndata: \x7b\"content\":[\x7b\"text\":\"y\"\x7d]\x7d"])).emitted
        = ["x", "y"]
      ∧ (AnthropicService.chat (HttpResponse.mk true ""
        ["data: \x7b\"content\":[\x7b\"text\":\"x\"\x7d]\x7d\ndata: \x7bbad\ndata: \x7b\"content\":[\x7b\"text\":\"y\"\x7d]\x7d"])).result
        = Except.ok ("x" ++ "y")) :=
  ⟨(C5_malformed_line_skipped
      (HttpResponse.mk true ""
        ["data: \x7b\"choices\":[\x7b\"delta\":\x7b\"content\":\"a\"\x7d\x7d]\x7d\ndata: \x7bbad\ndata: \x7b\"choices\":[\x7b\"delta\":\x7b\"content\":\"b\"\x7d\x7d]\x7d"])
      "data: \x7b\"choices\":[\x7b\"delta\":\x7b\"content\":\"a\"\x7d\x7d]\x7d"
      "data: \x7bbad"
      "data: \x7b\"choices\":[\x7b\"delta\":\x7b\"content\":\"b\"\x7d\x7d]\x7d"
      "a" "b" rfl rfl).1 rfl rfl rfl (by decide) (by decide),
   (C5_malformed_line_skipped
      (HttpResponse.mk true ""
        ["data: \x7b\"content\":[\x7b\"text\":\"x\"\x7d]\x7d\ndata: \x7bbad\ndata: \x7b\"content\":[\x7b\"text\":\"y\"\x7d]\x7d"])
      "data: \x7b\"content\":[\x7b\"text\":\"x\"\x7d]\x7d"
      "data: \x7bbad"
      "data: \x7b\"content\":[\x7b\"text\":\"y\"\x7d]\x7d"
      "x" "y" rfl rfl).2 rfl rfl rfl (by decide) (by decide)⟩

/-- Claim C6: for Google streaming chat with a successful HTTP response,
if the fully buffered (trimmed) body is not valid JSON or its top-level
value is not an array, the call fails with the fatal decode error and the
`onDelta` callback is never invoked — zero deltas emitted. -/
theorem C6_google_undecodable_fatal (resp : HttpResponse) (hok : resp.ok = true)
    (hna : parsesToArray (jsTrim resp.bodyText) = false) :
    (GoogleService.chat resp).result
      = Except.error (JsError.errorMsg "解析 Google API 响应失败")
  ∧ (GoogleService.chat resp).emitted = [] := by
  unfold GoogleService.chat
  rw [if_pos hok]
  revert hna
  unfold parsesToArray
  cases JSON.parse (jsTrim resp.bodyText) with
  | none => intro _; exact ⟨rfl, rfl⟩
  | some j =>
    cases j with
    | arr elems => intro hna; exact Bool.noConfusion hna
    | null => intro _; exact ⟨rfl, rfl⟩
    | bool b => intro _; exact ⟨rfl, rfl⟩
    | num n => intro _; exact ⟨rfl, rfl⟩
    | str t => intro _; exact ⟨rfl, rfl⟩
    | obj fs => intro _; exact ⟨rfl, rfl⟩

theorem C6_google_undecodable_fatal_witness :
    ((GoogleService.chat (HttpResponse.mk true "" ["not json"])).result
      = Except.error (JsError.errorMsg "解析 Google API 响应失败")
    ∧ (GoogleService.chat (HttpResponse.mk true "" ["not json"])).emitted = [])
  ∧ ((GoogleService.chat (HttpResponse.mk true "" ["\x7b\"a\":1\x7d"])).result
      = Except.error (JsError.errorMsg "解析 Google API 响应失败")
    ∧ (GoogleService.chat (HttpResponse.mk true "" ["\x7b\"a\":1\x7d"])).emitted = []) :=
  ⟨C6_google_undecodable_fatal (HttpResponse.mk true "" ["not json"]) rfl rfl,
   C6_google_undecodable_fatal (HttpResponse.mk true "" ["\x7b\"a\":1\x7d"]) rfl rfl⟩

/-- Claim C7: the factory matches the provider identifier
case-insensitively against openai/anthropic/google — identifiers differing
only in letter case construct equivalent transports — and any identifier
outside that set fails with an unsupported-provider error carrying the
offending identifier.  `AIServiceFactory.createService` is a pure
function of its arguments: no network request happens on either path. -/
theorem C7_factory_case_insensitive (apiKey : String) (modelName baseUrl : Option String) :
    (∀ s t : String, jsToLowerCase s = jsToLowerCase t →
      ∀ svc : AIServiceKind,
        AIServiceFactory.createService s apiKey modelName baseUrl = Except.ok svc ↔
        AIServiceFactory.createService t apiKey modelName baseUrl = Except.ok svc)
  ∧ (∀ s : String, jsToLowerCase s ≠ "openai" → jsToLowerCase s ≠ "anthropic" →
      jsToLowerCase s ≠ "google" →
      AIServiceFactory.createService s apiKey modelName baseUrl
        = Except.error ("Unsupported AI service type: " ++ s)) := by
  constructor
  · intro s t h svc
    unfold AIServiceFactory.createService
    rw [h]
    by_cases h1 : jsToLowerCase t = "openai"
    · rw [if_pos h1, if_pos h1]
    · rw [if_neg h1, if_neg h1]
      by_cases h2 : jsToLowerCase t = "anthropic"
      · rw [if_pos h2, if_pos h2]
      · rw [if_neg h2, if_neg h2]
        by_cases h3 : jsToLowerCase t = "google"
        · rw [if_pos h3, if_pos h3]
        · rw [if_neg h3, if_neg h3]
          constructor <;> intro hc <;> exact Except.noConfusion hc
  · intro s h1 h2 h3
    unfold AIServiceFactory.createService
    rw [if_neg h1, if_neg h2, if_neg h3]

theorem C7_factory_case_insensitive_witness :
    (AIServiceFactory.createService "OPENAI" "k" none none
        = Except.ok (OpenAIService.make "k" none none)
      ↔ AIServiceFactory.createService "openai" "k" none none
        = Except.ok (OpenAIService.make "k" none none))
  ∧ AIServiceFactory.createService "mistral" "k" none none
      = Except.error ("Unsupported AI service type: " ++ "mistral") :=
  ⟨(C7_factory_case_insensitive "k" none none).1 "OPENAI" "openai" rfl
      (OpenAIService.make "k" none none),
   (C7_factory_case_insensitive "k" none none).2 "mistral"
      (by decide) (by decide) (by decide)⟩

theorem openaiErrorFromParsed_obj (st : String) (d : Json) (hnull : d ≠ Json.null) :
    openaiErrorFromParsed st (some d) = openaiErrorFromObj st d := by
  cases d <;> first | exact absurd rfl hnull | rfl

theorem sharedErrorFromParsed_obj (head st : String) (d : Json) (hnull : d ≠ Json.null) :
    sharedErrorFromParsed head st (some d) = sharedErrorFromObj head st d := by
  cases d <;> first | exact absurd rfl hnull | rfl

theorem openaiErrorFromObj_none (st : String) (d : Json) (h : d.getField "error" = none) :
    openaiErrorFromObj st d = JsError.errorMsg ("OpenAI API错误: " ++ st) := by
  unfold openaiErrorFromObj
  rw [h]

theorem sharedErrorFromObj_none (head st : String) (d : Json)
    (h : d.getField "error" = none) :
    sharedErrorFromObj head st d = JsError.errorMsg (head ++ st) := by
  unfold sharedErrorFromObj
  rw [h]
  rfl

theorem openaiErrorFromObj_some (st : String) (d e : Json) (h : d.getField "error" = some e) :
    openaiErrorFromObj st d
      = if e.truthy then JsError.errorMsg ("OpenAI API错误: " ++ openaiErrMsgOrCode e)
        else JsError.errorMsg ("OpenAI API错误: " ++ st) := by
  unfold openaiErrorFromObj
  rw [h]

theorem openaiErrMsgOrCode_some (e mv : Json) (h : e.getField "message" = some mv)
    (ht : mv.truthy = true) : openaiErrMsgOrCode e = mv.jsToString := by
  unfold openaiErrMsgOrCode
  rw [h]
  show (if mv.truthy then jsTemplateStr (some mv) else jsTemplateStr (e.getField "code"))
      = mv.jsToString
  rw [if_pos ht]
  rfl

theorem sharedErrorFromObj_msg (head st : String) (d e mv : Json)
    (hfield : d.getField "error" = some e) (hmsg : e.getField "message" = some mv)
    (ht : mv.truthy = true) :
    sharedErrorFromObj head st d = JsError.errorMsg (head ++ mv.jsToString) := by
  unfold sharedErrorFromObj
  rw [hfield, optDot_eq_getField e "message" (getField_ne_null e "message" mv hmsg), hmsg]
  show (if mv.truthy then JsError.errorMsg (head ++ mv.jsToString)
        else JsError.errorMsg (head ++ st)) = JsError.errorMsg (head ++ mv.jsToString)
  rw [if_pos ht]

theorem chat_error_results (resp : HttpResponse) (hok : resp.ok = false) :
    (OpenAIService.chat resp).result = Except.error (OpenAIService.errorOutcome resp)
  ∧ (AnthropicService.chat resp).result = Except.error (AnthropicService.errorOutcome resp)
  ∧ (GoogleService.chat resp).result = Except.error (GoogleService.errorOutcome resp) := by
  have hok' : ¬ resp.ok = true := by rw [hok]; exact Bool.false_ne_true
  refine ⟨?_, ?_, ?_⟩
  · unfold OpenAIService.chat
    rw [if_neg hok']
  · unfold AnthropicService.chat
    rw [if_neg hok']
  · unfold GoogleService.chat
    rw [if_neg hok']

/-- Claim C8 (counterexample): the claim says a non-2xx response whose
body is not decodable as JSON falls back to the HTTP status text; but the
source first awaits `response.json()`, whose rejection propagates — the
call fails with the JSON decode exception, not a statusText message. -/
theorem C8_nonjson_error_body_counterexample :
    (OpenAIService.chat (HttpResponse.mk false "Internal Server Error" ["oops"])).result
      = Except.error JsError.parseExn
  ∧ JsError.parseExn
      ≠ JsError.errorMsg ("OpenAI API错误: " ++ "Internal Server Error") :=
  ⟨rfl, by decide⟩

/-- Claim C8 (amended): for every provider, on a non-2xx response the
failure depends on the error body: a body that is not valid JSON makes the
call fail with the JSON decode exception itself (no statusText fallback);
a JSON body without the provider's error field falls back to the HTTP
status text; a JSON body whose error field carries a truthy message uses
that message. -/
theorem C8_amended_error_message_paths (resp : HttpResponse) (hok : resp.ok = false) :
    (JSON.parse resp.bodyText = none →
        (OpenAIService.chat resp).result = Except.error JsError.parseExn
      ∧ (AnthropicService.chat resp).result = Except.error JsError.parseExn
      ∧ (GoogleService.chat resp).result = Except.error JsError.parseExn)
  ∧ (∀ d : Json, JSON.parse resp.bodyText = some d → d ≠ Json.null →
        d.getField "error" = none →
        (OpenAIService.chat resp).result
          = Except.error (JsError.errorMsg ("OpenAI API错误: " ++ resp.statusText))
      ∧ (AnthropicService.chat resp).result
          = Except.error (JsError.errorMsg ("Anthropic API错误: " ++ resp.statusText))
      ∧ (GoogleService.chat resp).result
          = Except.error (JsError.errorMsg ("Google API错误: " ++ resp.statusText)))
  ∧ (∀ d e mv : Json, JSON.parse resp.bodyText = some d →
        d.getField "error" = some e → e.getField "message" = some mv → mv.truthy = true →
        (OpenAIService.chat resp).result
          = Except.error (JsError.errorMsg ("OpenAI API错误: " ++ mv.jsToString))
      ∧ (AnthropicService.chat resp).result
          = Except.error (JsError.errorMsg ("Anthropic API错误: " ++ mv.jsToString))
      ∧ (GoogleService.chat resp).result
          = Except.error (JsError.errorMsg ("Google API错误: " ++ mv.jsToString))) := by
  obtain ⟨ho, ha, hg⟩ := chat_error_results resp hok
  refine ⟨?_, ?_, ?_⟩
  · intro hp
    refine ⟨?_, ?_, ?_⟩
    · rw [ho]
      unfold OpenAIService.errorOutcome
      rw [hp]
      rfl
    · rw [ha]
      unfold AnthropicService.errorOutcome sharedErrorOutcome
      rw [hp]
      rfl
    · rw [hg]
      unfold GoogleService.errorOutcome sharedErrorOutcome
      rw [hp]
      rfl
  · intro d hp hnull hfield
    refine ⟨?_, ?_, ?_⟩
    · rw [ho]
      unfold OpenAIService.errorOutcome
      rw [hp, openaiErrorFromParsed_obj resp.statusText d hnull,
        openaiErrorFromObj_none resp.statusText d hfield]
    · rw [ha]
      unfold AnthropicService.errorOutcome sharedErrorOutcome
      rw [hp, sharedErrorFromParsed_obj _ resp.statusText d hnull,
        sharedErrorFromObj_none _ resp.statusText d hfield]
    · rw [hg]
      unfold GoogleService.errorOutcome sharedErrorOutcome
      rw [hp, sharedErrorFromParsed_obj _ resp.statusText d hnull,
        sharedErrorFromObj_none _ resp.statusText d hfield]
  · intro d e mv hp hfield hmsg ht
    have hnull := getField_ne_null d "error" e hfield
    refine ⟨?_, ?_, ?_⟩
    · rw [ho]
      unfold OpenAIService.errorOutcome
      rw [hp, openaiErrorFromParsed_obj resp.statusText d hnull,
        openaiErrorFromObj_some resp.statusText d e hfield,
        if_pos (truthy_of_getField_some e "message" mv hmsg),
        openaiErrMsgOrCode_some e mv hmsg ht]
    · rw [ha]
      unfold AnthropicService.errorOutcome sharedErrorOutcome
      rw [hp, sharedErrorFromParsed_obj _ resp.statusText d hnull,
        sharedErrorFromObj_msg _ resp.statusText d e mv hfield hmsg ht]
    · rw [hg]
      unfold GoogleService.errorOutcome sharedErrorOutcome
      rw [hp, sharedErrorFromParsed_obj _ resp.statusText d hnull,
        sharedErrorFromObj_msg _ resp.statusText d e mv hfield hmsg ht]

theorem C8_amended_error_message_paths_witness :
    ((OpenAIService.chat (HttpResponse.mk false "ST" ["oops"])).result
      = Except.error JsError.parseExn)
  ∧ ((AnthropicService.chat (HttpResponse.mk false "ST" ["\x7b\x7d"])).result
      = Except.error (JsError.errorMsg ("Anthropic API错误: " ++ "ST")))
  ∧ ((GoogleService.chat (HttpResponse.mk false "ST"
        ["\x7b\"error\":\x7b\"message\":\"boom\"\x7d\x7d"])).result
      = Except.error (JsError.errorMsg ("Google API错误: "
          ++ Json.jsToString (Json.str "boom")))) :=
  ⟨((C8_amended_error_message_paths (HttpResponse.mk false "ST" ["oops"]) rfl).1 rfl).1,
   ((C8_amended_error_message_paths (HttpResponse.mk false "ST" ["\x7b\x7d"]) rfl).2.1
      (Json.obj []) rfl (fun h => Json.noConfusion h) rfl).2.1,
   ((C8_amended_error_message_paths (HttpResponse.mk false "ST"
        ["\x7b\"error\":\x7b\"message\":\"boom\"\x7d\x7d"]) rfl).2.2
      (Json.obj [("error", Json.obj [("message", Json.str "boom")])])
      (Json.obj [("message", Json.str "boom")]) (Json.str "boom")
      rfl rfl rfl rfl).2.2⟩

/-- Claim C9: for every provider transport, `validateKey()` never raises —
it is a total Boolean function of the fetch outcome — and it resolves to
`true` exactly when the underlying GET settled with a successful status;
every other outcome (network rejection or non-2xx status) yields `false`. -/
theorem C9_validateKey_total_boolean (o : FetchOutcome) :
    (OpenAIService.validateKey o = true
      ↔ ∃ r : HttpResponse, o = FetchOutcome.success r ∧ r.ok = true)
  ∧ (AnthropicService.validateKey o = true
      ↔ ∃ r : HttpResponse, o = FetchOutcome.success r ∧ r.ok = true)
  ∧ (GoogleService.validateKey o = true
      ↔ ∃ r : HttpResponse, o = FetchOutcome.success r ∧ r.ok = true) := by
  cases o with
  | success r =>
    refine ⟨?_, ?_, ?_⟩ <;>
      exact ⟨fun h => ⟨r, rfl, h⟩,
        fun hr => by
          obtain ⟨r', he, hk⟩ := hr
          cases he
          exact hk⟩
  | netError =>
    refine ⟨?_, ?_, ?_⟩ <;>
      exact ⟨fun h => Bool.noConfusion h,
        fun hr => by
          obtain ⟨r', he, hk⟩ := hr
          exact FetchOutcome.noConfusion he⟩

theorem C9_validateKey_total_boolean_witness :
    OpenAIService.validateKey (FetchOutcome.success (HttpResponse.mk true "OK" [])) = true
  ∧ AnthropicService.validateKey FetchOutcome.netError = false
  ∧ GoogleService.validateKey (FetchOutcome.success (HttpResponse.mk false "Bad" [])) = false :=
  ⟨(C9_validateKey_total_boolean
      (FetchOutcome.success (HttpResponse.mk true "OK" []))).1.mpr
      ⟨HttpResponse.mk true "OK" [], rfl, rfl⟩,
   by
    cases hv : AnthropicService.validateKey FetchOutcome.netError with
    | false => rfl
    | true =>
      obtain ⟨r, he, _⟩ := (C9_validateKey_total_boolean FetchOutcome.netError).2.1.mp hv
      exact FetchOutcome.noConfusion he,
   by
    cases hv : GoogleService.validateKey (FetchOutcome.success (HttpResponse.mk false "Bad" []))
      with
    | false => rfl
    | true =>
      obtain ⟨r, he, hk⟩ := (C9_validateKey_total_boolean
        (FetchOutcome.success (HttpResponse.mk false "Bad" []))).2.2.mp hv
      cases he
      exact Bool.noConfusion hk⟩

/-- Claim C10: for the OpenAI and Anthropic transports, every key of the
caller-supplied options object is spread into the JSON request body after
the transport's own fields, so an options key named model, messages or
stream silently replaces the transport-computed value — in particular,
`stream: false` in the options overrides the streaming flag computed from
the presence of the callback. -/
theorem C10_options_spread_overrides (modelName : String) (msgs : List ChatMessage)
    (hasOnStream : Bool) (opts : List (String × Json)) (k : String) (v : Json)
    (hk : lookupLast opts k = some v) :
    lookupLast (Json.objFields
      (OpenAIService.requestBody modelName msgs hasOnStream (some opts))) k = some v
  ∧ lookupLast (Json.objFields
      (AnthropicService.requestBody modelName msgs hasOnStream (some opts))) k = some v :=
  ⟨lookupLast_spread_some opts _ k v hk, lookupLast_spread_some opts _ k v hk⟩

theorem C10_options_spread_overrides_witness :
    lookupLast (Json.objFields (OpenAIService.requestBody "gpt-3.5-turbo" [] true
      (some [("stream", Json.bool false)]))) "stream" = some (Json.bool false)
  ∧ lookupLast (Json.objFields (AnthropicService.requestBody "claude-3-opus" [] true
      (some [("stream", Json.bool false)]))) "stream" = some (Json.bool false) :=
  ⟨(C10_options_spread_overrides "gpt-3.5-turbo" [] true [("stream", Json.bool false)]
      "stream" (Json.bool false) rfl).1,
   (C10_options_spread_overrides "claude-3-opus" [] true [("stream", Json.bool false)]
      "stream" (Json.bool false) rfl).2⟩

end YunChat
